import Mathlib

/-!
Shallow embedding of the contrataai repository: the reference-lookup tools
(modalidades, estados, municipios), the PNCP request-parameter construction,
and the conversational agent with its tool-calling loop, together with
theorems settling the specification claims.
-/

namespace ContratAI

/-! ### Python string semantics over lists of characters -/

/-- Python str.lower on a single character, over the Basic Latin and
Latin-1 ranges that cover every character appearing in the repository data
and queries: the simple case mapping adds 32 to the uppercase letters
A..Z and À..Þ (the multiplication sign at U+00D7 is not a letter and is
left unchanged). -/
def pyLowerChar (c : Char) : Char :=
  if ('A' ≤ c ∧ c ≤ 'Z') ∨ ('À' ≤ c ∧ c ≤ 'Þ' ∧ c ≠ '×') then
    Char.ofNat (c.toNat + 32)
  else c

/-- Python str.lower on the character level. -/
def pyLower (s : List Char) : List Char := s.map pyLowerChar

/-- Python str.upper on the character level. -/
def pyUpper (s : List Char) : List Char := s.map Char.toUpper

/-- Whitespace characters recognised by Python str.split and str.strip. -/
def isSpace (c : Char) : Bool := c == ' ' || c == '\t' || c == '\n' || c == '\r'

/-- Python str.strip: drop whitespace from both ends. -/
def pyStrip (s : List Char) : List Char :=
  ((s.dropWhile isSpace).reverse.dropWhile isSpace).reverse

/-- Helper for pySplitWs: accumulates the current word (reversed). -/
def splitWsAux : List Char → List Char → List (List Char)
  | [], acc => if acc.isEmpty then [] else [acc.reverse]
  | c :: rest, acc =>
    if isSpace c then
      if acc.isEmpty then splitWsAux rest [] else acc.reverse :: splitWsAux rest []
    else splitWsAux rest (c :: acc)

/-- Python str.split with no arguments: split on whitespace runs, dropping
empty pieces. -/
def pySplitWs (s : List Char) : List (List Char) := splitWsAux s []

/-- Character-list prefix test. -/
def pyStartsWith : List Char → List Char → Bool
  | [], _ => true
  | _ :: _, [] => false
  | a :: as, b :: bs => a == b && pyStartsWith as bs

/-- Python substring containment (the in operator on str). -/
def pyContains : List Char → List Char → Bool
  | needle, [] => needle.isEmpty
  | needle, c :: rest => pyStartsWith needle (c :: rest) || pyContains needle rest

/-- Python " ".join. -/
def joinSpace (ws : List (List Char)) : List Char := List.intercalate [' '] ws

/-! ### Modality lookup tool (src/tools/modalidade_tools.py) -/

structure Modalidade where
  codigo : Nat
  nome : String
  tipo : String
deriving DecidableEq

/-- The fixed modality table from obter_modalidades_contratacao. -/
def obter_modalidades_contratacao : List Modalidade :=
  [ { codigo := 1, nome := "Leilão - Eletrônico", tipo := "Leilão" },
    { codigo := 4, nome := "Concorrência - Eletrônica", tipo := "Concorrência" },
    { codigo := 5, nome := "Concorrência - Presencial", tipo := "Concorrência" },
    { codigo := 6, nome := "Pregão - Eletrônico", tipo := "Pregão" },
    { codigo := 7, nome := "Pregão - Presencial", tipo := "Pregão" },
    { codigo := 8, nome := "Dispensa", tipo := "Dispensa" },
    { codigo := 9, nome := "Inexigibilidade", tipo := "Inexigibilidade" },
    { codigo := 11, nome := "Pré-qualificação", tipo := "Pré-qualificação" },
    { codigo := 12, nome := "Credenciamento", tipo := "Credenciamento" },
    { codigo := 13, nome := "Leilão - Presencial", tipo := "Leilão" } ]

/-- The local normalizar function of consultar_modalidade: replace hyphens by
spaces, lowercase, collapse whitespace runs. -/
def normalizar (texto : String) : List Char :=
  joinSpace (pySplitWs (pyLower (texto.data.map (fun c => if c == '-' then ' ' else c))))

/-- The per-record match condition in the list comprehension of
consultar_modalidade. -/
def modalidadeCorresponde (nome_normalizado : List Char) (m : Modalidade) : Bool :=
  pyContains nome_normalizado (normalizar m.nome) ||
  pyContains nome_normalizado (normalizar m.tipo) ||
  (pySplitWs nome_normalizado).any (fun palavra => pyContains palavra (normalizar m.nome))

/-- The resultados list computed by consultar_modalidade; a None or empty
string (falsy) filter returns the whole table. -/
def consultar_modalidade_resultados (nome : Option String) : List Modalidade :=
  match nome with
  | some n =>
    if n.isEmpty then obter_modalidades_contratacao
    else obter_modalidades_contratacao.filter (modalidadeCorresponde (normalizar n))
  | none => obter_modalidades_contratacao

inductive ModalidadeResult where
  | ok (total_encontrados : Nat) (modalidades : List Modalidade)
  | semResultado (message : String) (modalidades_disponiveis : List Modalidade)
deriving DecidableEq

/-- consultar_modalidade: success payload when any record matched, otherwise
the no-match payload listing all modalities. -/
def consultar_modalidade (nome : Option String) : ModalidadeResult :=
  let resultados := consultar_modalidade_resultados nome
  if resultados.isEmpty then
    ModalidadeResult.semResultado
      ("Nenhuma modalidade encontrada com os critérios especificados")
      obter_modalidades_contratacao
  else
    ModalidadeResult.ok resultados.length resultados

/-! ### State lookup tool (src/tools/uf_tools.py); the JSON table itself
is loaded from a data file outside the source tree, so the lookup is
parametrised by the loaded table. -/

structure Regiao where
  id : Int
  sigla : String
  nome : String
deriving DecidableEq

structure Estado where
  id : Int
  sigla : String
  nome : String
  regiao : Regiao
deriving DecidableEq

/-- The elif regiao_nome branch (and the final else returning everything). -/
def ufFiltroRegiao (estados : List Estado) (regiao_nome : Option String) : List Estado :=
  match regiao_nome with
  | some r =>
    if r.isEmpty then estados
    else estados.filter (fun e => pyContains (pyStrip (pyLower r.data)) (pyLower e.regiao.nome.data))
  | none => estados

/-- The elif nome branch. -/
def ufFiltroNome (estados : List Estado) (nome regiao_nome : Option String) : List Estado :=
  match nome with
  | some n =>
    if n.isEmpty then ufFiltroRegiao estados regiao_nome
    else estados.filter (fun e => pyContains (pyStrip (pyLower n.data)) (pyLower e.nome.data))
  | none => ufFiltroRegiao estados regiao_nome

/-- The elif sigla branch. -/
def ufFiltroSigla (estados : List Estado) (sigla nome regiao_nome : Option String) : List Estado :=
  match sigla with
  | some s =>
    if s.isEmpty then ufFiltroNome estados nome regiao_nome
    else estados.filter (fun e => e.sigla.data == pyStrip (pyUpper s.data))
  | none => ufFiltroNome estados nome regiao_nome

/-- The resultados list of consultar_uf: the first applicable filter in
priority order id, sigla, nome, regiao_nome wins; no filter returns all. -/
def consultar_uf_resultados (estados : List Estado)
    (id : Option Int) (sigla nome regiao_nome : Option String) : List Estado :=
  match id with
  | some i => estados.filter (fun e => e.id == i)
  | none => ufFiltroSigla estados sigla nome regiao_nome

inductive UFResult where
  | falhaCarregamento (error : String)
  | ok (total_encontrados : Nat) (estados : List Estado)
  | semResultado (message : String)
deriving DecidableEq

/-- consultar_uf: load-failure payload when the table is empty, otherwise
success or no-match payload over the filtered results. -/
def consultar_uf (estados : List Estado)
    (id : Option Int) (sigla nome regiao_nome : Option String) : UFResult :=
  if estados.isEmpty then
    UFResult.falhaCarregamento ("Não foi possível carregar os dados dos estados")
  else
    let resultados := consultar_uf_resultados estados id sigla nome regiao_nome
    if resultados.isEmpty then
      UFResult.semResultado ("Nenhum estado encontrado com os critérios especificados")
    else
      UFResult.ok resultados.length resultados

/-! ### Municipality lookup tool (src/tools/municipio_tools.py); the JSON
table is again external, so the lookup is parametrised by it. -/

structure MunicipioUF where
  id : Int
  sigla : String
  nome : String
deriving DecidableEq

structure Mesorregiao where
  nome : String
  UF : Option MunicipioUF
deriving DecidableEq

structure Microrregiao where
  nome : String
  mesorregiao : Option Mesorregiao
deriving DecidableEq

structure Municipio where
  id : Int
  nome : String
  microrregiao : Option Microrregiao
deriving DecidableEq

/-- The chained dict .get navigation down to the UF record. -/
def munUF (m : Municipio) : Option MunicipioUF :=
  (m.microrregiao.bind (fun mi => mi.mesorregiao)).bind (fun me => me.UF)

/-- One entry of the municipios_formatados list in the success branch. -/
structure MunicipioFmt where
  id : Int
  nome : String
  uf_id : Option Int
  uf_sigla : Option String
  uf_nome : Option String
  microrregiao : Option String
  mesorregiao : Option String
deriving DecidableEq

def formatar_municipio (m : Municipio) : MunicipioFmt :=
  { id := m.id
    nome := m.nome
    uf_id := (munUF m).map (fun u => u.id)
    uf_sigla := (munUF m).map (fun u => u.sigla)
    uf_nome := (munUF m).map (fun u => u.nome)
    microrregiao := m.microrregiao.map (fun mi => mi.nome)
    mesorregiao := (m.microrregiao.bind (fun mi => mi.mesorregiao)).map (fun me => me.nome) }

/-- The name-match condition of the elif nome branch. -/
def municipioNomeCorresponde (nome : String) (m : Municipio) : Bool :=
  pyContains (pyStrip (pyLower nome.data)) (pyLower m.nome.data)

inductive MunicipioResult where
  | falhaCarregamento (error : String)
  | ok (total_encontrados : Nat) (municipios : List MunicipioFmt)
  | semCriterio (message : String) (total_municipios : Nat)
  | semResultado (message : String)
deriving DecidableEq

/-- The final success/no-match step shared by the filter branches. -/
def municipioFinaliza (resultados : List Municipio) : MunicipioResult :=
  if resultados.isEmpty then
    MunicipioResult.semResultado ("Nenhum município encontrado com os critérios especificados")
  else
    MunicipioResult.ok resultados.length (resultados.map formatar_municipio)

/-- consultar_municipio: exact IBGE id, then name substring (capped at 50),
then state id, then state abbreviation; with no criteria it returns the
prompt-for-criteria payload instead of the full table. -/
def consultar_municipio (municipios : List Municipio)
    (id : Option Int) (nome : Option String)
    (uf_id : Option Int) (uf_sigla : Option String) : MunicipioResult :=
  if municipios.isEmpty then
    MunicipioResult.falhaCarregamento ("Não foi possível carregar os dados dos municípios")
  else
    match id with
    | some i => municipioFinaliza (municipios.filter (fun m => m.id == i))
    | none =>
      match nome with
      | some n =>
        if n.isEmpty then
          match uf_id with
          | some ui =>
            municipioFinaliza (municipios.filter (fun m =>
              match munUF m with
              | some u => u.id == ui
              | none => false))
          | none =>
            match uf_sigla with
            | some s =>
              if s.isEmpty then
                MunicipioResult.semCriterio
                  ("Por favor, forneça ao menos um critério de busca (id, nome, uf_id ou uf_sigla)")
                  municipios.length
              else
                municipioFinaliza (municipios.filter (fun m =>
                  match munUF m with
                  | some u => u.sigla.data == pyStrip (pyUpper s.data)
                  | none => false))
            | none =>
              MunicipioResult.semCriterio
                ("Por favor, forneça ao menos um critério de busca (id, nome, uf_id ou uf_sigla)")
                municipios.length
        else
          municipioFinaliza
            (if (municipios.filter (municipioNomeCorresponde n)).length > 50 then
              (municipios.filter (municipioNomeCorresponde n)).take 50
            else
              municipios.filter (municipioNomeCorresponde n))
      | none =>
        match uf_id with
        | some ui =>
          municipioFinaliza (municipios.filter (fun m =>
            match munUF m with
            | some u => u.id == ui
            | none => false))
        | none =>
          match uf_sigla with
          | some s =>
            if s.isEmpty then
              MunicipioResult.semCriterio
                ("Por favor, forneça ao menos um critério de busca (id, nome, uf_id ou uf_sigla)")
                municipios.length
            else
              municipioFinaliza (municipios.filter (fun m =>
                match munUF m with
                | some u => u.sigla.data == pyStrip (pyUpper s.data)
                | none => false))
          | none =>
            MunicipioResult.semCriterio
              ("Por favor, forneça ao menos um critério de busca (id, nome, uf_id ou uf_sigla)")
              municipios.length

/-! ### PNCP search tool request parameters (src/tools/pncp_tools.py) -/

structure PncpParams where
  dataFinal : String
  pagina : Int
  tamanhoPagina : Int
  uf : Option String
  cnpj : Option String
  codigoModalidadeContratacao : Option Int
  codigoMunicipioIbge : Option String
deriving DecidableEq

/-- The CNPJ punctuation stripping: replace each of the dot, slash and
hyphen characters by the empty string. -/
def stripCnpj (s : List Char) : List Char :=
  ((s.filter (fun c => !(c == '.'))).filter (fun c => !(c == '/'))).filter (fun c => !(c == '-'))

/-- The params dictionary as built by consultar_editais_pncp before the
outbound GET request: page size coerced into the 10..500 range (0 is falsy
and yields the default 10), uf uppercased, cnpj punctuation stripped, the
optional codes included only when truthy. -/
def consultar_editais_pncp_params (data_final : String) (pagina : Int)
    (tamanho_pagina : Int) (uf : Option String) (cnpj : Option String)
    (codigo_modalidade : Option Int) (codigo_municipio_ibge : Option String) :
    PncpParams :=
  { dataFinal := data_final
    pagina := pagina
    tamanhoPagina := if tamanho_pagina ≠ 0 then max 10 (min tamanho_pagina 500) else 10
    uf :=
      match uf with
      | some u => if u.isEmpty then none else some (String.mk (pyUpper u.data))
      | none => none
    cnpj :=
      match cnpj with
      | some c => if c.isEmpty then none else some (String.mk (stripCnpj c.data))
      | none => none
    codigoModalidadeContratacao :=
      match codigo_modalidade with
      | some c => if c ≠ 0 then some c else none
      | none => none
    codigoMunicipioIbge :=
      match codigo_municipio_ibge with
      | some c => if c.isEmpty then none else some c
      | none => none }

/-! ### Conversational agent (src/agents/conversational_agent.py) -/

/-- Tool arguments, a dictionary of named string values. -/
abbrev ToolInput := List (String × String)

/-- A registered tool: a name and an invoke handler; a raised exception is
modelled as the error branch carrying str(e). -/
structure Tool where
  name : String
  invoke : ToolInput → Except String String

/-- A tool-invocation request produced by the LLM decision step. -/
structure ToolCall where
  name : String
  args : ToolInput
  id : String
deriving DecidableEq

/-- The LLM decision-step response: content plus requested tool calls. -/
structure LLMResponse where
  content : String
  tool_calls : List ToolCall

/-- A LangChain message as used by the loop. -/
inductive Msg where
  | system (content : String)
  | human (content : String)
  | ai (content : String) (tool_calls : List ToolCall)
  | tool (content : String) (tool_call_id : String)
deriving DecidableEq

def Msg.isSystem : Msg → Bool
  | Msg.system _ => true
  | _ => false

/-- ConversationalAgent._execute_tool: first registered tool with a matching
name is invoked; a handler exception becomes an in-band error text; an
unknown name becomes the not-found text. -/
def execute_tool (tools : List Tool) (tool_name : String) (tool_input : ToolInput) : String :=
  match tools.find? (fun t => t.name == tool_name) with
  | some t =>
    match t.invoke tool_input with
    | Except.ok result => result
    | Except.error e => "Erro ao executar ferramenta: " ++ e
  | none => "Ferramenta \x27" ++ tool_name ++ "\x27 não encontrada."

/-- The memory update on the success path of chat: append the user and
assistant messages, then keep only the last 20 entries. -/
def updateHistory (chat_history : List Msg) (user_input output : String) : List Msg :=
  if (chat_history ++ [Msg.human user_input, Msg.ai output []]).length > 20 then
    (chat_history ++ [Msg.human user_input, Msg.ai output []]).drop
      ((chat_history ++ [Msg.human user_input, Msg.ai output []]).length - 20)
  else
    chat_history ++ [Msg.human user_input, Msg.ai output []]

/-- The fixed guidance message returned when the iteration limit is hit. -/
def mensagemExaustao : String :=
  "Desculpe, não consegui completar a tarefa. A consulta pode ser muito complexa ou pode haver um problema temporário. Tente: (1) reformular a pergunta de forma mais simples, (2) dividir em perguntas menores, ou (3) tentar novamente em alguns instantes."

/-- The agent_prompts.json configuration relevant to chat. -/
structure AgentPrompts where
  error_message : Option String

/-- agent_prompts.get with the default apology text. -/
def fallbackErro (prompts : AgentPrompts) : String :=
  prompts.error_message.getD ("Desculpe, ocorreu um erro.")

/-- Outcome of the bounded tool-calling loop inside chat. -/
inductive LoopOutcome where
  | answered (output : String) (new_history : List Msg)
  | exhausted
  | raised (e : String)
deriving DecidableEq

/-- The for-loop of chat, fuelled by the remaining iterations; the second
component counts how many LLM decision rounds were performed. -/
def chatLoop (llm : List Msg → Except String LLMResponse) (tools : List Tool)
    (user_input : String) (chat_history : List Msg) :
    List Msg → Nat → LoopOutcome × Nat
  | _, 0 => (LoopOutcome.exhausted, 0)
  | messages, fuel + 1 =>
    match llm messages with
    | Except.error e => (LoopOutcome.raised e, 1)
    | Except.ok response =>
      if response.tool_calls.isEmpty then
        (LoopOutcome.answered response.content
          (updateHistory chat_history user_input response.content), 1)
      else
        let messages2 :=
          (messages ++ [Msg.ai response.content response.tool_calls]) ++
            response.tool_calls.map (fun tc =>
              Msg.tool (execute_tool tools tc.name tc.args) tc.id)
        let next := chatLoop llm tools user_input chat_history messages2 fuel
        (next.1, next.2 + 1)

/-- The date context computed by datetime.now in __init__: the formatted
current date, its YYYYMMDD form, and the +30-day YYYYMMDD form. -/
structure DateCtx where
  data_atual : String
  data_atual_yyyymmdd : String
  data_30_dias : String
deriving DecidableEq

/-- The system prompt string assembled in __init__ from the base prompt and
the date context. -/
def buildSystemPrompt (base_system_prompt : String) (hoje : DateCtx) : String :=
  base_system_prompt ++ "\n\n📅 CONTEXTO TEMPORAL IMPORTANTE:\n" ++
  "Data atual: " ++ hoje.data_atual ++ " (formato API: " ++ hoje.data_atual_yyyymmdd ++ ")\n" ++
  "Ao consultar editais no PNCP, a data final (dataFinal) DEVE ser maior ou igual à data atual.\n" ++
  "Para consultas futuras, calcule a data no formato YYYYMMDD a partir de hoje.\n" ++
  "Exemplos: \x27próximo mês\x27 use uma data 30-60 dias à frente, \x27este mês\x27 use o final do mês atual, \x27daqui 30 dias\x27 = " ++ hoje.data_30_dias

/-- The mutable state of a ConversationalAgent instance. -/
structure AgentState where
  system_prompt : String
  chat_history : List Msg
deriving DecidableEq

/-- ConversationalAgent.__init__: the system prompt is built once, from the
date at construction time, and the memory starts empty. -/
def initAgent (base_system_prompt : String) (hoje : DateCtx) : AgentState :=
  { system_prompt := buildSystemPrompt base_system_prompt hoje
    chat_history := [] }

/-- The message list seeded at the start of chat: cached system prompt,
then the conversation memory, then the new user message. -/
def chatMessages (st : AgentState) (user_input : String) : List Msg :=
  Msg.system st.system_prompt :: (st.chat_history ++ [Msg.human user_input])

/-- ConversationalAgent.chat; `now` is the wall-clock date at call time,
which the body never consults (the system prompt is the cached one). -/
def chat (llm : List Msg → Except String LLMResponse) (tools : List Tool)
    (prompts : AgentPrompts) (st : AgentState) (user_input : String)
    (now : DateCtx) (max_iterations : Nat := 15) : String × AgentState :=
  match (chatLoop llm tools user_input st.chat_history (chatMessages st user_input) max_iterations).1 with
  | LoopOutcome.answered output hist => (output, { st with chat_history := hist })
  | LoopOutcome.exhausted => (mensagemExaustao, st)
  | LoopOutcome.raised _ => (fallbackErro prompts, st)

/-! ### Claim theorems -/

/-- Claim C4, counterexample: the query pregao written without the accent
matches no record at all, because the normalization of
consultar_modalidade lowercases and replaces hyphens and whitespace but
does not remove accents; the call returns the no-match payload instead of
a success result containing the two Pregão modalities. -/
theorem consultar_modalidade_pregao_sem_acento_nao_encontra :
    consultar_modalidade_resultados (some ("pregao")) = [] ∧
    consultar_modalidade (some ("pregao")) =
      ModalidadeResult.semResultado
        ("Nenhuma modalidade encontrada com os critérios especificados")
        obter_modalidades_contratacao := by
  constructor
  · decide
  · decide

/-- Claim C4, amended: the matching of consultar_modalidade is
case-insensitive and hyphen/whitespace-normalized but accent-sensitive;
the accented query pregão in any casing — that is, every query string
whose lowercase form is pregão — returns a success result whose records
are exactly the modalities Pregão - Eletrônico and Pregão - Presencial,
while the accent-less query pregao matches nothing. -/
theorem consultar_modalidade_pregao_com_acento (s : String)
    (hs : pyLower s.data = ("pregão").data) :
    consultar_modalidade (some s) =
      ModalidadeResult.ok 2
        [ { codigo := 6, nome := "Pregão - Eletrônico", tipo := "Pregão" },
          { codigo := 7, nome := "Pregão - Presencial", tipo := "Pregão" } ] := by
  have hmap : s.data.map (fun c => if c == '-' then ' ' else c) = s.data := by
    have hpt : ∀ c ∈ s.data, (if c == '-' then ' ' else c) = c := by
      intro c hc
      have hmem : pyLowerChar c ∈ ("pregão").data := by
        rw [← hs]
        exact List.mem_map_of_mem pyLowerChar hc
      by_cases hcc : c = '-'
      · subst hcc
        exact absurd hmem (by decide)
      · simp [hcc]
    calc s.data.map (fun c => if c == '-' then ' ' else c)
        = s.data.map id := List.map_congr_left hpt
      _ = s.data := List.map_id s.data
  have hnorm : normalizar s = normalizar ("pregão") := by
    unfold normalizar
    rw [hmap]
    rw [show pyLower s.data = ("pregão").data from hs]
    decide
  have hse : s.isEmpty = false := by
    rcases h : s.isEmpty with _ | _
    · rfl
    · have he := (String.isEmpty_iff s).mp h
      subst he
      exact absurd hs (by decide)
  simp only [consultar_modalidade, consultar_modalidade_resultados, hse,
    Bool.false_eq_true, if_false, hnorm]
  decide

/-- Claim C4 (amended), witness: the casings Pregão, pregão and PREGÃO all
lowercase to pregão and all return exactly the two Pregão modalities. -/
theorem consultar_modalidade_pregao_com_acento_witness :
    consultar_modalidade (some ("Pregão")) =
      ModalidadeResult.ok 2
        [ { codigo := 6, nome := "Pregão - Eletrônico", tipo := "Pregão" },
          { codigo := 7, nome := "Pregão - Presencial", tipo := "Pregão" } ] ∧
    consultar_modalidade (some ("pregão")) =
      ModalidadeResult.ok 2
        [ { codigo := 6, nome := "Pregão - Eletrônico", tipo := "Pregão" },
          { codigo := 7, nome := "Pregão - Presencial", tipo := "Pregão" } ] ∧
    consultar_modalidade (some ("PREGÃO")) =
      ModalidadeResult.ok 2
        [ { codigo := 6, nome := "Pregão - Eletrônico", tipo := "Pregão" },
          { codigo := 7, nome := "Pregão - Presencial", tipo := "Pregão" } ] :=
  ⟨consultar_modalidade_pregao_com_acento ("Pregão") (by decide),
   consultar_modalidade_pregao_com_acento ("pregão") (by decide),
   consultar_modalidade_pregao_com_acento ("PREGÃO") (by decide)⟩

/-- Claim C8: the tamanhoPagina value placed in the upstream request
parameters always lies in the range 10..500; inputs below 10 (including
the falsy 0) become 10, inputs above 500 become 500, and inputs inside the
range are sent unchanged. -/
theorem tamanhoPagina_sempre_entre_10_e_500 (data_final : String) (pagina t : Int)
    (uf cnpj : Option String) (cm : Option Int) (cmi : Option String) :
    10 ≤ (consultar_editais_pncp_params data_final pagina t uf cnpj cm cmi).tamanhoPagina ∧
    (consultar_editais_pncp_params data_final pagina t uf cnpj cm cmi).tamanhoPagina ≤ 500 ∧
    (t < 10 → (consultar_editais_pncp_params data_final pagina t uf cnpj cm cmi).tamanhoPagina = 10) ∧
    (500 < t → (consultar_editais_pncp_params data_final pagina t uf cnpj cm cmi).tamanhoPagina = 500) ∧
    (10 ≤ t → t ≤ 500 → (consultar_editais_pncp_params data_final pagina t uf cnpj cm cmi).tamanhoPagina = t) := by
  have hx : (consultar_editais_pncp_params data_final pagina t uf cnpj cm cmi).tamanhoPagina
      = if t ≠ 0 then max 10 (min t 500) else 10 := rfl
  rw [hx]
  by_cases ht : t = 0 <;> simp [ht] <;> omega

/-- Claim C8, witness: page-size inputs 5, 9999 and 42 are sent as 10, 500
and 42 respectively. -/
theorem tamanhoPagina_sempre_entre_10_e_500_witness :
    (consultar_editais_pncp_params ("20250101") 1 5 none none none none).tamanhoPagina = 10 ∧
    (consultar_editais_pncp_params ("20250101") 1 9999 none none none none).tamanhoPagina = 500 ∧
    (consultar_editais_pncp_params ("20250101") 1 42 none none none none).tamanhoPagina = 42 :=
  ⟨(tamanhoPagina_sempre_entre_10_e_500 ("20250101") 1 5 none none none none).2.2.1 (by decide),
   (tamanhoPagina_sempre_entre_10_e_500 ("20250101") 1 9999 none none none none).2.2.2.1 (by decide),
   (tamanhoPagina_sempre_entre_10_e_500 ("20250101") 1 42 none none none none).2.2.2.2 (by decide) (by decide)⟩

/-- Claim C9: for every non-empty CNPJ input, the cnpj value placed in the
upstream request parameters is the input with every dot, slash and hyphen
removed, hence it contains none of those three characters. -/
theorem cnpj_enviado_sem_pontuacao (data_final : String) (pagina t : Int)
    (uf : Option String) (c : String) (cm : Option Int) (cmi : Option String)
    (hc : c ≠ "") :
    (consultar_editais_pncp_params data_final pagina t uf (some c) cm cmi).cnpj =
      some (String.mk (stripCnpj c.data)) ∧
    ∀ ch ∈ stripCnpj c.data, ¬(ch = '.' ∨ ch = '/' ∨ ch = '-') := by
  constructor
  · have hce : c.isEmpty = false := by
      rcases h : c.isEmpty with _ | _
      · rfl
      · exact absurd ((String.isEmpty_iff c).mp h) hc
    simp [consultar_editais_pncp_params, hce]
  · intro ch hch
    simp only [stripCnpj, List.mem_filter] at hch
    obtain ⟨⟨⟨-, h1⟩, h2⟩, h3⟩ := hch
    rintro (rfl | rfl | rfl) <;> simp_all

/-- Claim C9, witness: a fully punctuated CNPJ is sent as digits only. -/
theorem cnpj_enviado_sem_pontuacao_witness :
    (consultar_editais_pncp_params ("20250101") 1 10 none (some ("12.345/0001-99")) none none).cnpj =
      some (String.mk (stripCnpj ("12.345/0001-99").data)) ∧
    ∀ ch ∈ stripCnpj ("12.345/0001-99").data, ¬(ch = '.' ∨ ch = '/' ∨ ch = '-') :=
  cnpj_enviado_sem_pontuacao ("20250101") 1 10 none ("12.345/0001-99") none none (by decide)

/-- A registered tool whose handler succeeds, for concrete witnesses. -/
def toolStub : Tool :=
  { name := "ConsultarUF", invoke := fun _ => Except.ok ("ok") }

/-- A registered tool whose handler raises, for concrete witnesses. -/
def toolFalho : Tool :=
  { name := "ConsultarUF", invoke := fun _ => Except.error ("boom") }

/-- Claim C5: invoking an unregistered tool name returns the in-band
not-found text, which contains the literal tool name, and never raises;
and an exception raised by a found tool handler is converted to the
in-band execution-error text. -/
theorem execute_tool_erros_em_banda (tools : List Tool) (tool_name : String)
    (tool_input : ToolInput) :
    ((∀ t ∈ tools, t.name ≠ tool_name) →
      execute_tool tools tool_name tool_input =
        "Ferramenta \x27" ++ tool_name ++ "\x27 não encontrada." ∧
      ∃ l r, (execute_tool tools tool_name tool_input).data =
        l ++ tool_name.data ++ r) ∧
    (∀ t e, tools.find? (fun t2 => t2.name == tool_name) = some t →
      t.invoke tool_input = Except.error e →
      execute_tool tools tool_name tool_input = "Erro ao executar ferramenta: " ++ e) := by
  constructor
  · intro h
    have hf : tools.find? (fun t2 => t2.name == tool_name) = none :=
      List.find?_eq_none.mpr (fun t ht => by simpa using h t ht)
    have hmsg : execute_tool tools tool_name tool_input =
        "Ferramenta \x27" ++ tool_name ++ "\x27 não encontrada." := by
      simp [execute_tool, hf]
    refine ⟨hmsg, "Ferramenta \x27".data, "\x27 não encontrada.".data, ?_⟩
    rw [hmsg]
    simp [String.data_append]
  · intro t e hf hi
    simp [execute_tool, hf, hi]

/-- Claim C5, witness: an unknown name yields the not-found text, and a
registered handler that raises yields the execution-error text. -/
theorem execute_tool_erros_em_banda_witness :
    execute_tool [toolStub] ("Desconhecida") [] =
      "Ferramenta \x27Desconhecida\x27 não encontrada." ∧
    execute_tool [toolFalho] ("ConsultarUF") [] =
      "Erro ao executar ferramenta: boom" :=
  ⟨((execute_tool_erros_em_banda [toolStub] ("Desconhecida") []).1 (by decide)).1,
   (execute_tool_erros_em_banda [toolFalho] ("ConsultarUF") []).2 toolFalho ("boom") rfl rfl⟩

/-- Claim C6: in consultar_uf exactly one filter applies, chosen by the
fixed priority id, then sigla, then nome, then regiao_nome; in particular
with both id and nome supplied the id filter alone determines the result,
and with no filter supplied the full state table is returned. -/
theorem consultar_uf_prioridade_filtros (estados : List Estado) (i : Int)
    (sigla nome regiao_nome : Option String) (s nm : String)
    (hs : s ≠ "") (hn : nm ≠ "") (hne : estados ≠ []) :
    consultar_uf estados (some i) sigla nome regiao_nome =
      consultar_uf estados (some i) none none none ∧
    consultar_uf estados none (some s) nome regiao_nome =
      consultar_uf estados none (some s) none none ∧
    consultar_uf estados none none (some nm) regiao_nome =
      consultar_uf estados none none (some nm) none ∧
    consultar_uf estados none none none none =
      UFResult.ok estados.length estados := by
  have hse : s.isEmpty = false := by
    rcases h : s.isEmpty with _ | _
    · rfl
    · exact absurd ((String.isEmpty_iff s).mp h) hs
  have hnme : nm.isEmpty = false := by
    rcases h : nm.isEmpty with _ | _
    · rfl
    · exact absurd ((String.isEmpty_iff nm).mp h) hn
  have hee : estados.isEmpty = false := List.isEmpty_eq_false.mpr hne
  refine ⟨rfl, ?_, ?_, ?_⟩
  · simp [consultar_uf, consultar_uf_resultados, ufFiltroSigla, hse]
  · simp [consultar_uf, consultar_uf_resultados, ufFiltroSigla, ufFiltroNome, hnme]
  · simp [consultar_uf, consultar_uf_resultados, ufFiltroSigla, ufFiltroNome,
      ufFiltroRegiao, hee]

/-- A concrete state record for witnesses. -/
def saoPaulo : Estado :=
  { id := 35, sigla := "SP", nome := "São Paulo",
    regiao := { id := 3, sigla := "SE", nome := "Sudeste" } }

/-- Claim C6, witness: on a one-state table, supplying id together with
lower-priority filters behaves as supplying id alone, and no filter
returns the whole table. -/
theorem consultar_uf_prioridade_filtros_witness :
    (consultar_uf [saoPaulo] (some 35) (some ("SP")) (some ("Rio")) none =
      consultar_uf [saoPaulo] (some 35) none none none) ∧
    consultar_uf [saoPaulo] none none none none = UFResult.ok 1 [saoPaulo] := by
  have h := consultar_uf_prioridade_filtros [saoPaulo] 35 (some ("SP")) (some ("Rio")) none
    ("SP") ("Rio") (by decide) (by decide) (by decide)
  exact ⟨h.1, h.2.2.2⟩

/-- Claim C7: a municipality name search matching more than 50 records
returns exactly the first 50 matches in original table order, and a call
with no filter returns the prompt-for-criteria payload instead of the
full table. -/
theorem consultar_municipio_limite_50_e_sem_criterio (municipios : List Municipio)
    (n : String) (hn : n ≠ "") (hne : municipios ≠ [])
    (hlots : 50 < (municipios.filter (municipioNomeCorresponde n)).length) :
    consultar_municipio municipios none (some n) none none =
      MunicipioResult.ok 50
        (((municipios.filter (municipioNomeCorresponde n)).take 50).map formatar_municipio) ∧
    consultar_municipio municipios none none none none =
      MunicipioResult.semCriterio
        ("Por favor, forneça ao menos um critério de busca (id, nome, uf_id ou uf_sigla)")
        municipios.length := by
  have hee : municipios.isEmpty = false := List.isEmpty_eq_false.mpr hne
  have hnme : n.isEmpty = false := by
    rcases h : n.isEmpty with _ | _
    · rfl
    · exact absurd ((String.isEmpty_iff n).mp h) hn
  have hlen : ((municipios.filter (municipioNomeCorresponde n)).take 50).length = 50 := by
    rw [List.length_take]
    omega
  have hte : ((municipios.filter (municipioNomeCorresponde n)).take 50).isEmpty = false := by
    rw [List.isEmpty_eq_false]
    intro h
    rw [h] at hlen
    simp at hlen
  constructor
  · simp [consultar_municipio, hee, hnme, municipioFinaliza, hlots, hte, hlen]
  · simp [consultar_municipio, hee]

/-- A concrete municipality record for witnesses. -/
def munX : Municipio := { id := 1, nome := "Xapuri", microrregiao := none }

/-- Claim C7, witness: on a 51-copy table every record matches the name
query, the result is capped at the first 50, and the filterless call
returns the prompt-for-criteria payload. -/
theorem consultar_municipio_limite_50_e_sem_criterio_witness :
    consultar_municipio (List.replicate 51 munX) none (some ("xapuri")) none none =
      MunicipioResult.ok 50
        ((((List.replicate 51 munX).filter (municipioNomeCorresponde ("xapuri"))).take 50).map
          formatar_municipio) ∧
    consultar_municipio (List.replicate 51 munX) none none none none =
      MunicipioResult.semCriterio
        ("Por favor, forneça ao menos um critério de busca (id, nome, uf_id ou uf_sigla)")
        (List.replicate 51 munX).length :=
  consultar_municipio_limite_50_e_sem_criterio (List.replicate 51 munX) ("xapuri")
    (by decide) (by decide) (by decide)

/-- If the LLM requests tool calls on every round, the loop consumes all
its fuel, performing one LLM round per unit of fuel, and exhausts. -/
theorem chatLoop_exhausts (llm : List Msg → Except String LLMResponse)
    (tools : List Tool) (u : String) (hist : List Msg)
    (h : ∀ msgs, ∃ r, llm msgs = Except.ok r ∧ r.tool_calls ≠ []) :
    ∀ fuel messages, chatLoop llm tools u hist messages fuel =
      (LoopOutcome.exhausted, fuel) := by
  intro fuel
  induction fuel with
  | zero => intro messages; rfl
  | succ k ih =>
    intro messages
    obtain ⟨r, hr, hne⟩ := h messages
    have hni : r.tool_calls.isEmpty = false := by
      rcases he : r.tool_calls.isEmpty with _ | _
      · rfl
      · exact absurd (List.isEmpty_iff.mp he) hne
    simp [chatLoop, hr, hni, ih]

/-- An answered loop always produces the memory update of the original
history with the user input and the final output. -/
theorem chatLoop_answered_history (llm : List Msg → Except String LLMResponse)
    (tools : List Tool) (u : String) (hist : List Msg) :
    ∀ fuel messages out h2,
      (chatLoop llm tools u hist messages fuel).1 = LoopOutcome.answered out h2 →
      h2 = updateHistory hist u out := by
  intro fuel
  induction fuel with
  | zero => intro messages out h2 hx; exact absurd hx (by simp [chatLoop])
  | succ k ih =>
    intro messages out h2 hx
    rw [chatLoop] at hx
    cases hr : llm messages with
    | error e => rw [hr] at hx; simp at hx
    | ok r =>
      rw [hr] at hx
      rcases he : r.tool_calls.isEmpty with _ | _
      · simp only [he, Bool.false_eq_true, if_false] at hx
        exact ih _ out h2 hx
      · simp [he] at hx
        obtain ⟨h1, h2'⟩ := hx
        rw [← h2', h1]

/-- The updated memory has length two more than before, capped at 20. -/
theorem updateHistory_length (hist : List Msg) (u a : String) :
    (updateHistory hist u a).length = min (hist.length + 2) 20 := by
  unfold updateHistory
  split <;> simp_all [List.length_append, List.length_drop] <;> omega

/-- The updated memory is a suffix of the appended history: eviction only
removes a prefix, the oldest entries first. -/
theorem updateHistory_suffix (hist : List Msg) (u a : String) :
    ∃ dropped, dropped ++ updateHistory hist u a =
      hist ++ [Msg.human u, Msg.ai a []] := by
  unfold updateHistory
  split
  · exact ⟨_, List.take_append_drop _ _⟩
  · exact ⟨[], rfl⟩

/-- Every message of the updated memory comes from the appended history. -/
theorem updateHistory_mem (hist : List Msg) (u a : String) (m : Msg)
    (hm : m ∈ updateHistory hist u a) : m ∈ hist ++ [Msg.human u, Msg.ai a []] := by
  obtain ⟨d, hd⟩ := updateHistory_suffix hist u a
  rw [← hd]
  exact List.mem_append_right d hm

/-- Any chat call either leaves the memory untouched or replaces it by the
capped update with the user input and some final output. -/
theorem chat_history_cases (llm : List Msg → Except String LLMResponse)
    (tools : List Tool) (prompts : AgentPrompts) (st : AgentState)
    (u : String) (now : DateCtx) (n : Nat) :
    (chat llm tools prompts st u now n).2.chat_history = st.chat_history ∨
    ∃ out, (chat llm tools prompts st u now n).2.chat_history =
      updateHistory st.chat_history u out := by
  unfold chat
  cases hx : (chatLoop llm tools u st.chat_history (chatMessages st u) n).1 with
  | answered out h2 =>
    right
    refine ⟨out, ?_⟩
    simp only []
    exact chatLoop_answered_history llm tools u st.chat_history n _ out h2 hx
  | exhausted => left; rfl
  | raised e => left; rfl

/-- Claim C1: with a scripted LLM that requests tool calls on every round,
chat performs exactly max_iterations LLM rounds, returns the fixed
exhaustion guidance message, and leaves the conversation memory exactly as
it was before the call. -/
theorem chat_exaustao_apos_max_iteracoes (llm : List Msg → Except String LLMResponse)
    (tools : List Tool) (prompts : AgentPrompts) (st : AgentState)
    (u : String) (now : DateCtx) (n : Nat)
    (h : ∀ msgs, ∃ r, llm msgs = Except.ok r ∧ r.tool_calls ≠ []) :
    chat llm tools prompts st u now n = (mensagemExaustao, st) ∧
    (chatLoop llm tools u st.chat_history (chatMessages st u) n).2 = n := by
  have hx := chatLoop_exhausts llm tools u st.chat_history h n (chatMessages st u)
  constructor
  · unfold chat
    rw [hx]
  · rw [hx]

/-- A scripted LLM decision step that requests a tool call on every round,
for concrete witnesses. -/
def llmSempreFerramenta : List Msg → Except String LLMResponse :=
  fun _ => Except.ok { content := "", tool_calls := [{ name := "ConsultarUF", args := [], id := "1" }] }

/-- An agent state with a nonempty memory, for concrete witnesses. -/
def estadoExemplo : AgentState :=
  { system_prompt := "S", chat_history := [Msg.human ("oi"), Msg.ai ("olá") []] }

/-- Claim C1, witness: with the always-tool-calling scripted LLM and the
default budget of 15 iterations, chat returns the exhaustion message, the
memory is unchanged, and exactly 15 rounds were performed. -/
theorem chat_exaustao_apos_max_iteracoes_witness :
    chat llmSempreFerramenta [toolStub] { error_message := none } estadoExemplo ("busca")
      { data_atual := "01/01/2025", data_atual_yyyymmdd := "20250101", data_30_dias := "20250131" } 15 =
      (mensagemExaustao, estadoExemplo) ∧
    (chatLoop llmSempreFerramenta [toolStub] ("busca") estadoExemplo.chat_history
      (chatMessages estadoExemplo ("busca")) 15).2 = 15 :=
  chat_exaustao_apos_max_iteracoes llmSempreFerramenta [toolStub] { error_message := none }
    estadoExemplo ("busca")
    { data_atual := "01/01/2025", data_atual_yyyymmdd := "20250101", data_30_dias := "20250131" } 15
    (fun _ => ⟨_, rfl, List.cons_ne_nil _ _⟩)

/-- The content of the leading system message of a message list, for
observing which system prompt a chat call hands to the LLM. -/
def cabecaSistema : List Msg → String
  | Msg.system c :: _ => c
  | _ => ""

/-- A scripted LLM that immediately answers with the content of the system
message it was given, for observing the system prompt in use. -/
def llmEcoSistema : List Msg → Except String LLMResponse :=
  fun msgs => Except.ok { content := cabecaSistema msgs, tool_calls := [] }

/-- The construction-time date context used in the C2 counterexample. -/
def dataJan1 : DateCtx :=
  { data_atual := "01/01/2025", data_atual_yyyymmdd := "20250101", data_30_dias := "20250131" }

/-- A later call-time date context used in the C2 counterexample. -/
def dataJan2 : DateCtx :=
  { data_atual := "02/01/2025", data_atual_yyyymmdd := "20250102", data_30_dias := "20250201" }

/-- Claim C2, counterexample: an agent constructed on one day, when its
chat runs on a different day, still hands the LLM the system prompt built
from the construction date, not one rebuilt from the call date; the date
context is therefore not recomputed at the start of each call. -/
theorem system_prompt_nao_recalculado_counterexample :
    (chat llmEcoSistema [] { error_message := none }
        (initAgent ("BASE") dataJan1) ("oi") dataJan2 15).1 =
      buildSystemPrompt ("BASE") dataJan1 ∧
    (chat llmEcoSistema [] { error_message := none }
        (initAgent ("BASE") dataJan1) ("oi") dataJan2 15).1 ≠
      buildSystemPrompt ("BASE") dataJan2 := by
  constructor
  · rfl
  · decide

/-- Claim C2, amended: the date context is computed once, at agent
construction, and baked into the cached system prompt; every chat call
reuses that cached prompt as the leading system message, its result does
not depend on the call-time date, and the cached prompt survives the
call unchanged. -/
theorem system_prompt_fixado_na_construcao (base : String) (d : DateCtx)
    (llm : List Msg → Except String LLMResponse) (tools : List Tool)
    (prompts : AgentPrompts) (st : AgentState) (u : String)
    (now now2 : DateCtx) (n : Nat) :
    (initAgent base d).system_prompt = buildSystemPrompt base d ∧
    (chatMessages st u).head? = some (Msg.system st.system_prompt) ∧
    chat llm tools prompts st u now n = chat llm tools prompts st u now2 n ∧
    (chat llm tools prompts st u now n).2.system_prompt = st.system_prompt := by
  refine ⟨rfl, rfl, rfl, ?_⟩
  unfold chat
  cases hx : (chatLoop llm tools u st.chat_history (chatMessages st u) n).1 <;> rfl

/-- Claim C3: appending a turn to the conversation memory keeps at most 20
entries, evicting the oldest first (the updated memory is a suffix of the
appended one), never touches the system prompt (no system message enters
the memory), and every chat call preserves the 20-entry bound. -/
theorem memoria_limitada_a_20 (llm : List Msg → Except String LLMResponse)
    (tools : List Tool) (prompts : AgentPrompts) (st : AgentState)
    (u : String) (now : DateCtx) (n : Nat) (a : String)
    (h : st.chat_history.length ≤ 20) :
    (chat llm tools prompts st u now n).2.chat_history.length ≤ 20 ∧
    (updateHistory st.chat_history u a).length = min (st.chat_history.length + 2) 20 ∧
    (∃ dropped, dropped ++ updateHistory st.chat_history u a =
      st.chat_history ++ [Msg.human u, Msg.ai a []]) ∧
    ((∀ m ∈ st.chat_history, m.isSystem = false) →
      ∀ m ∈ updateHistory st.chat_history u a, m.isSystem = false) := by
  refine ⟨?_, updateHistory_length st.chat_history u a,
    updateHistory_suffix st.chat_history u a, ?_⟩
  · rcases chat_history_cases llm tools prompts st u now n with hc | ⟨out, hc⟩
    · rw [hc]; exact h
    · rw [hc, updateHistory_length]
      omega
  · intro hns m hm
    have := updateHistory_mem st.chat_history u a m hm
    rcases List.mem_append.mp this with hL | hR
    · exact hns m hL
    · simp only [List.mem_cons, List.not_mem_nil, or_false] at hR
      rcases hR with rfl | rfl <;> rfl

/-- Claim C3, witness: a chat call starting from a 2-entry memory keeps the
memory within the 20-entry bound. -/
theorem memoria_limitada_a_20_witness :
    (chat llmEcoSistema [] { error_message := none } estadoExemplo ("oi")
      dataJan1 15).2.chat_history.length ≤ 20 :=
  (memoria_limitada_a_20 llmEcoSistema [] { error_message := none } estadoExemplo
    ("oi") dataJan1 15 ("resposta") (by decide)).1

/-- Claim C10: when the loop body raises (for example an LLM transport
failure), chat catches it, returns the configured fallback error message
(or the default apology text), and leaves the conversation memory exactly
as it was before the call. -/
theorem chat_falha_tratada (llm : List Msg → Except String LLMResponse)
    (tools : List Tool) (prompts : AgentPrompts) (st : AgentState)
    (u : String) (now : DateCtx) (n : Nat) (e : String)
    (h : (chatLoop llm tools u st.chat_history (chatMessages st u) n).1 =
      LoopOutcome.raised e) :
    chat llm tools prompts st u now n = (fallbackErro prompts, st) ∧
    (chat llm tools prompts st u now n).2.chat_history = st.chat_history := by
  have hc : chat llm tools prompts st u now n = (fallbackErro prompts, st) := by
    unfold chat
    rw [h]
  exact ⟨hc, by rw [hc]⟩

/-- A scripted LLM whose transport always fails, for concrete witnesses. -/
def llmFalhaTransporte : List Msg → Except String LLMResponse :=
  fun _ => Except.error ("connection error")

/-- Claim C10, witness: a transport failure on the first round yields the
default apology text and an unchanged memory. -/
theorem chat_falha_tratada_witness :
    chat llmFalhaTransporte [toolStub] { error_message := none } estadoExemplo
      ("oi") dataJan1 15 = ("Desculpe, ocorreu um erro.", estadoExemplo) ∧
    (chat llmFalhaTransporte [toolStub] { error_message := none } estadoExemplo
      ("oi") dataJan1 15).2.chat_history = estadoExemplo.chat_history :=
  chat_falha_tratada llmFalhaTransporte [toolStub] { error_message := none }
    estadoExemplo ("oi") dataJan1 15 ("connection error") rfl

end ContratAI
